import Mathlib

/-!
Verification development for the toy-project repository: a build
orchestrator (build_all.py) and a version verification suite
(toy_package_b/tests/test_version.py) over the package
toy_package_b/__init__.py.

The external world (filesystem, subprocesses, installation metadata,
the git tool, the optional packaging library) is modelled as explicit
environment records; each Python function is translated into a pure
Lean function over such an environment.
-/

namespace ToyProject

/-! ## Build orchestrator: build_all.py -/

/-- Outcome of the external build subprocess launched for one package:
either the process ran to completion with a return code and captured
stdout/stderr, or launching it raised an exception with a message. -/
inductive BuildProcOutcome where
  | exited (returncode : Nat) (stdout : String) (stderr : String)
  | raised (msg : String)
deriving DecidableEq, Repr

/-- Environment of a run of build_all.py: whether the build module can
be imported, which directories exist, and what the build subprocess
does in each package directory. -/
structure BuildEnv where
  buildModuleAvailable : Bool
  dirExists : String → Bool
  runBuild : String → BuildProcOutcome

/-- The fixed package list, PACKAGES in build_all.py. -/
def PACKAGES : List String := ["toy_package_a", "toy_package_b"]

/-- Trace of one call of build_package: its boolean result, whether the
build subprocess was launched, and the lines it printed. -/
structure BuildAttempt where
  ok : Bool
  invoked : Bool
  output : List String
deriving DecidableEq, Repr

/-- build_package from build_all.py. If the package directory does not
exist it prints a diagnostic and returns False without launching any
subprocess; otherwise it launches the build subprocess and maps return
code 0 to True and everything else (including a launch exception) to
False. -/
def build_package (env : BuildEnv) (package_name : String) : BuildAttempt :=
  if env.dirExists package_name = false then
    { ok := false, invoked := false,
      output := ["[ERROR] Package directory " ++ package_name ++ " does not exist!"] }
  else
    match env.runBuild package_name with
    | .exited 0 _ _ =>
      { ok := true, invoked := true,
        output := ["\n[BUILD] Building " ++ package_name ++ "...",
                   "[OK] Successfully built " ++ package_name] }
    | .exited _ _ stderr =>
      { ok := false, invoked := true,
        output := ["\n[BUILD] Building " ++ package_name ++ "...",
                   "[ERROR] Failed to build " ++ package_name,
                   stderr] }
    | .raised msg =>
      { ok := false, invoked := true,
        output := ["\n[BUILD] Building " ++ package_name ++ "...",
                   "[ERROR] Exception while building " ++ package_name ++ ": " ++ msg] }

/-- State carried through the package loop of main: the success_count
and failed_packages variables of the source, plus the trace of launched
subprocesses and printed lines. -/
structure LoopState where
  successCount : Nat
  failedPackages : List String
  invokedBuilds : List String
  output : List String
deriving DecidableEq, Repr

/-- One iteration of the loop over PACKAGES in main. -/
def buildStep (env : BuildEnv) (st : LoopState) (package : String) : LoopState :=
  let r := build_package env package
  { successCount := if r.ok then st.successCount + 1 else st.successCount,
    failedPackages := if r.ok then st.failedPackages else st.failedPackages ++ [package],
    invokedBuilds := st.invokedBuilds ++ (if r.invoked then [package] else []),
    output := st.output ++ r.output }

/-- Observable result of a run of main: the process exit code, the final
success_count and failed_packages, the packages for which a build
subprocess was launched, and the printed lines. -/
structure RunResult where
  exitCode : Nat
  successCount : Nat
  failedPackages : List String
  invokedBuilds : List String
  output : List String
deriving DecidableEq, Repr

/-- The "=" * 60 separator line printed by main. -/
def sepLine : String := String.mk (List.replicate 60 '=')

/-- main from build_all.py. It first checks that the build module can
be imported and exits with code 1 otherwise; then it folds the loop
over PACKAGES, prints the summary, lists failed packages (exiting 1)
or prints next-step guidance (exiting 0). -/
def main (env : BuildEnv) : RunResult :=
  let header : List String := [sepLine, "Building all toy packages", sepLine]
  if env.buildModuleAvailable = false then
    { exitCode := 1, successCount := 0, failedPackages := [], invokedBuilds := [],
      output := header ++
        ["\n[ERROR] build module not found. Please install it:",
         "  pip install build"] }
  else
    let st := PACKAGES.foldl (buildStep env) ⟨0, [], [], []⟩
    let summary : List String :=
      ["\n" ++ sepLine,
       "Build Summary: " ++ toString st.successCount ++ "/" ++
         toString PACKAGES.length ++ " successful",
       sepLine]
    if st.failedPackages = [] then
      { exitCode := 0, successCount := st.successCount,
        failedPackages := st.failedPackages, invokedBuilds := st.invokedBuilds,
        output := header ++ st.output ++ summary ++
          ["\n[OK] All packages built successfully!",
           "\nNext steps:",
           "  Review the packages and upload to PyPI using:",
           "  python upload_all.py"] }
    else
      { exitCode := 1, successCount := st.successCount,
        failedPackages := st.failedPackages, invokedBuilds := st.invokedBuilds,
        output := header ++ st.output ++ summary ++
          (["\n[FAILED] The following packages failed to build:"] ++
            st.failedPackages.map (fun p => "  - " ++ p)) }

/-! ## Version string helpers shared by the verification suite -/

/-- Python str.strip() restricted to ASCII whitespace: drop whitespace
from both ends. -/
def pyStrip (s : String) : String :=
  String.mk (((s.data.dropWhile Char.isWhitespace).reverse.dropWhile
    Char.isWhitespace).reverse)

/-- Python str.lstrip applied with argument v: drop every leading v. -/
def lstripV (s : String) : String :=
  String.mk (s.data.dropWhile (fun c => c = 'v'))

/-- Matcher for the raw pattern digit-run, dot, digit-run, dot,
digit-run anchored at the start of the string (the suite uses it with
assertRegex, whose search semantics make the anchored pattern a test of
the string's leading characters). Returns the three digit groups and
the remaining characters when the pattern matches. -/
def parseSemver (l : List Char) : Option (List Char × List Char × List Char × List Char) :=
  let d1 := l.takeWhile Char.isDigit
  match d1, l.dropWhile Char.isDigit with
  | _ :: _, '.' :: s1 =>
    let d2 := s1.takeWhile Char.isDigit
    match d2, s1.dropWhile Char.isDigit with
    | _ :: _, '.' :: s2 =>
      let d3 := s2.takeWhile Char.isDigit
      match d3 with
      | [] => none
      | _ :: _ => some (d1, d2, d3, s2.dropWhile Char.isDigit)
    | _, _ => none
  | _, _ => none

/-- The format check the suite applies to version strings. -/
def semverMatch (s : String) : Bool := (parseSemver s.data).isSome

/-- Python int() acceptance, for the commit-count field of git describe
output: optional surrounding whitespace, optional sign, then one or
more digits (digit-grouping underscores are not modelled; no git
describe commit count contains them). -/
def pyIntParses (s : String) : Bool :=
  let core := match (pyStrip s).data with
    | '+' :: rest => rest
    | '-' :: rest => rest
    | l => l
  decide (core ≠ []) && core.all Char.isDigit

/-! ## The package under test: toy_package_b/__init__.py -/

/-- Environment for installation-metadata lookups: the result of the
metadata version query for each distribution name, with none standing
for PackageNotFoundError. -/
structure MetadataEnv where
  lookup : String → Option String

/-- The fallback sentinel assigned when the metadata lookup raises
PackageNotFoundError. -/
def fallbackVersion : String := "0.0.0+unknown"

/-- The version attribute computed at import of toy_package_b: the
module queries installation metadata under the hard-coded distribution
name toy-package-a and falls back to the sentinel when the lookup
raises PackageNotFoundError. -/
def toy_package_b_version (env : MetadataEnv) : String :=
  match env.lookup ("toy-package-a") with
  | some v => v
  | none => fallbackVersion

/-! ## The verification suite: tests/test_version.py -/

/-- Outcome of one unittest check: pass, assertion failure, explicit
skip, or an uncaught non-assertion exception (unittest reports the
last as an error). -/
inductive TestOutcome where
  | passed
  | failed (msg : String)
  | skipped (msg : String)
  | errored (msg : String)
deriving DecidableEq, Repr

/-- Whether an outcome is a skip. -/
def TestOutcome.isSkipped : TestOutcome → Bool
  | .skipped _ => true
  | _ => false

/-- Whether an outcome is an assertion failure. -/
def TestOutcome.isFailed : TestOutcome → Bool
  | .failed _ => true
  | _ => false

/-- test_version_format: assertRegex of the version attribute against
the anchored three-group digit pattern. -/
def test_version_format (exposed : String) : TestOutcome :=
  if semverMatch exposed then .passed
  else .failed ("Version should start with semantic versioning pattern")

/-- test_version_matches_metadata. The try block holds both the
metadata lookup and the assertEqual, and the handler catches every
Exception; since AssertionError is an Exception, a version mismatch is
caught by the same handler as a failed lookup and both end in skipTest. -/
def test_version_matches_metadata (exposed : String) (env : MetadataEnv) : TestOutcome :=
  match env.lookup ("toy-package-a") with
  | none => .skipped ("Package metadata not available")
  | some metadata_version =>
    if exposed = metadata_version then .passed
    else .skipped ("Package metadata not available")

/-- Result of one subprocess call to the git tool: the tool may be
absent (FileNotFoundError at launch) or run to completion with a
return code and captured stdout. -/
inductive ProcResult where
  | notFound
  | completed (returncode : Nat) (stdout : String)
deriving DecidableEq, Repr

/-- Environment of the two git queries the suite makes. -/
structure GitEnv where
  describeTags : ProcResult
  describeLong : ProcResult

/-- test_version_with_git_tag: runs git describe --tags --abbrev=0 with
check=True; a missing tool skips, a nonzero return code raises
CalledProcessError which is caught and skips, and otherwise the version
must start with the stripped tag or with its first dot-group. -/
def test_version_with_git_tag (exposed : String) (env : GitEnv) : TestOutcome :=
  match env.describeTags with
  | .notFound => .skipped ("Git not available")
  | .completed rc out =>
    if rc ≠ 0 then .skipped ("No git tags found or not in a git repository")
    else
      let git_tag := lstripV (pyStrip out)
      if exposed.startsWith git_tag ||
          exposed.startsWith ((git_tag.splitOn (".")).headD ("")) then .passed
      else .failed ("Version should be based on git tag")

/-- test_version_increments_with_commits: runs git describe --tags
--long --dirty without check. A missing tool skips. On return code 0
the version must match the three-group digit pattern, after which the
commit count field of the describe output is parsed with int() (a
non-numeric field would raise an uncaught ValueError) and every parsed
shape is accepted. On a nonzero return code the test does not skip: it
asserts the three-group digit pattern on the version. -/
def test_version_increments_with_commits (exposed : String) (env : GitEnv) : TestOutcome :=
  match env.describeLong with
  | .notFound => .skipped ("Git not available")
  | .completed rc out =>
    if rc = 0 then
      let git_describe := pyStrip out
      if semverMatch exposed = false then
        .failed ("Version should start with semantic versioning")
      else
        let parts := (lstripV git_describe).splitOn ("-")
        if parts.length ≥ 2 then
          if pyIntParses (parts.getD 1 ("")) then .passed
          else .errored ("ValueError: invalid literal for int")
        else .passed
    else
      if semverMatch exposed then .passed
      else .failed ("Version should start with semantic versioning")

/-- Environment for the optional packaging library: whether it is
installed, and which strings its Version constructor accepts. -/
structure ComplianceEnv where
  packagingAvailable : Bool
  parsesAsPep440 : String → Bool

/-- test_version_is_pep440_compliant. The import of packaging.version
stands before the try block, so a missing packaging library raises
ImportError outside every handler and the test errors; the ImportError
handler inside the try is unreachable because the Version call raises
only InvalidVersion. With the library present the test fails exactly
when Version rejects the string. -/
def test_version_is_pep440_compliant (exposed : String) (env : ComplianceEnv) : TestOutcome :=
  if env.packagingAvailable = false then
    .errored ("ModuleNotFoundError: No module named packaging")
  else if env.parsesAsPep440 exposed then .passed
  else .failed ("Version is not PEP 440 compliant")

/-! ## Helper lemmas -/

theorem takeWhile_all_append {p : Char → Bool} (xs : List Char) (y : Char) (ys : List Char)
    (hx : ∀ c ∈ xs, p c = true) (hy : p y = false) :
    (xs ++ y :: ys).takeWhile p = xs := by
  induction xs with
  | nil => simp [List.takeWhile_cons, hy]
  | cons a t ih =>
    have ha : p a = true := hx a (by simp)
    simp only [List.cons_append, List.takeWhile_cons, ha, if_true]
    rw [ih (fun c hc => hx c (by simp [hc]))]

theorem dropWhile_all_append {p : Char → Bool} (xs : List Char) (y : Char) (ys : List Char)
    (hx : ∀ c ∈ xs, p c = true) (hy : p y = false) :
    (xs ++ y :: ys).dropWhile p = y :: ys := by
  induction xs with
  | nil => simp [List.dropWhile_cons, hy]
  | cons a t ih =>
    have ha : p a = true := hx a (by simp)
    simp only [List.cons_append, List.dropWhile_cons, ha, if_true]
    exact ih (fun c hc => hx c (by simp [hc]))

theorem parseSemver_sound {l d1 d2 d3 r : List Char}
    (h : parseSemver l = some (d1, d2, d3, r)) :
    d1 ≠ [] ∧ d2 ≠ [] ∧ d3 ≠ [] ∧
    d1.all Char.isDigit = true ∧ d2.all Char.isDigit = true ∧ d3.all Char.isDigit = true ∧
    l = d1 ++ '.' :: (d2 ++ '.' :: (d3 ++ r)) := by
  simp only [parseSemver] at h
  split at h
  case _ c1 t1 s1 heq1 heq2 =>
    split at h
    case _ c2 t2 s2 heq3 heq4 =>
      split at h
      case _ => exact absurd h (by simp)
      case _ c3 t3 heq5 =>
        have hd1 : d1 = l.takeWhile Char.isDigit := by
          have := congrArg (fun o => o.map (fun q : List Char × List Char × List Char × List Char => q.1)) h
          simpa using this.symm
        have hd2 : d2 = s1.takeWhile Char.isDigit := by
          have := congrArg (fun o => o.map (fun q : List Char × List Char × List Char × List Char => q.2.1)) h
          simpa using this.symm
        have hd3 : d3 = s2.takeWhile Char.isDigit := by
          have := congrArg (fun o => o.map (fun q : List Char × List Char × List Char × List Char => q.2.2.1)) h
          simpa using this.symm
        have hr : r = s2.dropWhile Char.isDigit := by
          have := congrArg (fun o => o.map (fun q : List Char × List Char × List Char × List Char => q.2.2.2)) h
          simpa using this.symm
        refine ⟨by rw [hd1, heq1]; simp, by rw [hd2, heq3]; simp, by rw [hd3, heq5]; simp,
          ?_, ?_, ?_, ?_⟩
        · rw [hd1]
          exact List.all_eq_true.mpr (fun c hc => List.mem_takeWhile_imp hc)
        · rw [hd2]
          exact List.all_eq_true.mpr (fun c hc => List.mem_takeWhile_imp hc)
        · rw [hd3]
          exact List.all_eq_true.mpr (fun c hc => List.mem_takeWhile_imp hc)
        · have e1 : l = d1 ++ '.' :: s1 := by
            conv_lhs => rw [(List.takeWhile_append_dropWhile (p := Char.isDigit) (l := l)).symm]
            rw [heq2, hd1]
          have e2 : s1 = d2 ++ '.' :: s2 := by
            conv_lhs => rw [(List.takeWhile_append_dropWhile (p := Char.isDigit) (l := s1)).symm]
            rw [heq4, hd2]
          have e3 : s2 = d3 ++ r := by
            conv_lhs => rw [(List.takeWhile_append_dropWhile (p := Char.isDigit) (l := s2)).symm]
            rw [hd3, hr]
          rw [e1, e2, e3]
    case _ => exact absurd h (by simp)
  case _ => exact absurd h (by simp)

theorem parseSemver_complete (d1 d2 d3 r : List Char)
    (h1 : d1 ≠ []) (h2 : d2 ≠ []) (h3 : d3 ≠ [])
    (a1 : d1.all Char.isDigit = true) (a2 : d2.all Char.isDigit = true)
    (a3 : d3.all Char.isDigit = true) :
    (parseSemver (d1 ++ '.' :: (d2 ++ '.' :: (d3 ++ r)))).isSome = true := by
  have hdot : Char.isDigit '.' = false := by decide
  have m1 : ∀ c ∈ d1, Char.isDigit c = true := fun c hc => List.all_eq_true.mp a1 c hc
  have m2 : ∀ c ∈ d2, Char.isDigit c = true := fun c hc => List.all_eq_true.mp a2 c hc
  have tk1 : (d1 ++ '.' :: (d2 ++ '.' :: (d3 ++ r))).takeWhile Char.isDigit = d1 :=
    takeWhile_all_append _ _ _ m1 hdot
  have dr1 : (d1 ++ '.' :: (d2 ++ '.' :: (d3 ++ r))).dropWhile Char.isDigit =
      '.' :: (d2 ++ '.' :: (d3 ++ r)) :=
    dropWhile_all_append _ _ _ m1 hdot
  have tk2 : (d2 ++ '.' :: (d3 ++ r)).takeWhile Char.isDigit = d2 :=
    takeWhile_all_append _ _ _ m2 hdot
  have dr2 : (d2 ++ '.' :: (d3 ++ r)).dropWhile Char.isDigit = '.' :: (d3 ++ r) :=
    dropWhile_all_append _ _ _ m2 hdot
  obtain ⟨c1, t1, rfl⟩ := List.exists_cons_of_ne_nil h1
  obtain ⟨c2, t2, rfl⟩ := List.exists_cons_of_ne_nil h2
  obtain ⟨c3, t3, rfl⟩ := List.exists_cons_of_ne_nil h3
  have hc3 : Char.isDigit c3 = true := List.all_eq_true.mp a3 c3 (by simp)
  have tk3 : ((c3 :: t3) ++ r).takeWhile Char.isDigit =
      c3 :: (t3 ++ r).takeWhile Char.isDigit := by
    simp [List.takeWhile_cons, hc3]
  simp only [parseSemver, tk1, dr1, tk2, dr2, tk3]
  simp

theorem main_failedPackages_eq (env : BuildEnv) (h : env.buildModuleAvailable = true) :
    (main env).failedPackages =
      (PACKAGES.foldl (buildStep env) ⟨0, [], [], []⟩).failedPackages := by
  simp only [main, h]
  rw [if_neg (by simp)]
  by_cases hc : (PACKAGES.foldl (buildStep env) ⟨0, [], [], []⟩).failedPackages = [] <;>
    simp [hc]

theorem main_successCount_eq (env : BuildEnv) (h : env.buildModuleAvailable = true) :
    (main env).successCount =
      (PACKAGES.foldl (buildStep env) ⟨0, [], [], []⟩).successCount := by
  simp only [main, h]
  rw [if_neg (by simp)]
  by_cases hc : (PACKAGES.foldl (buildStep env) ⟨0, [], [], []⟩).failedPackages = [] <;>
    simp [hc]

theorem main_exitCode_eq (env : BuildEnv) (h : env.buildModuleAvailable = true) :
    (main env).exitCode =
      (if (PACKAGES.foldl (buildStep env) ⟨0, [], [], []⟩).failedPackages = [] then 0 else 1) := by
  simp only [main, h]
  rw [if_neg (by simp)]
  by_cases hc : (PACKAGES.foldl (buildStep env) ⟨0, [], [], []⟩).failedPackages = [] <;>
    simp [hc]

theorem main_summary_mem (env : BuildEnv) (h : env.buildModuleAvailable = true) :
    ("Build Summary: " ++
      toString (PACKAGES.foldl (buildStep env) ⟨0, [], [], []⟩).successCount ++
      "/" ++ toString PACKAGES.length ++ " successful") ∈ (main env).output := by
  simp only [main, h]
  rw [if_neg (by simp)]
  by_cases hc : (PACKAGES.foldl (buildStep env) ⟨0, [], [], []⟩).failedPackages = [] <;>
    simp [hc]

theorem buildLoop_counts (env : BuildEnv) (l : List String) (st : LoopState) :
    (List.foldl (buildStep env) st l).successCount +
      (List.foldl (buildStep env) st l).failedPackages.length =
      st.successCount + st.failedPackages.length + l.length ∧
    (List.foldl (buildStep env) st l).successCount =
      st.successCount + (l.filter (fun p => (build_package env p).ok)).length := by
  induction l generalizing st with
  | nil => simp
  | cons a t ih =>
    have hstep := ih (buildStep env st a)
    by_cases ha : (build_package env a).ok
    · constructor
      · rw [List.foldl_cons, hstep.1]
        simp [buildStep, ha]
        omega
      · rw [List.foldl_cons, hstep.2]
        simp [buildStep, ha, List.filter_cons]
        omega
    · constructor
      · rw [List.foldl_cons, hstep.1]
        simp [buildStep, ha]
        omega
      · rw [List.foldl_cons, hstep.2]
        simp [buildStep, ha, List.filter_cons]

/-! ## Claim theorems -/

/-- Claim C1: the orchestrator's process exit code is 0 exactly when the
preflight import succeeded and every package in the fixed list was
recorded successful; a build failure anywhere in the list, or an
unavailable build tool, yields exit code 1. -/
theorem mainExitCode_iff_allSucceed (env : BuildEnv) :
    ((main env).exitCode = 0 ↔
      (env.buildModuleAvailable = true ∧
        ∀ p ∈ PACKAGES, (build_package env p).ok = true)) ∧
    ((env.buildModuleAvailable = false ∨ ∃ p ∈ PACKAGES, (build_package env p).ok = false) →
      (main env).exitCode = 1) := by
  cases havail : env.buildModuleAvailable with
  | false =>
    constructor
    · simp [main, havail]
    · intro _
      simp [main, havail]
  | true =>
    by_cases hA : (build_package env ("toy_package_a")).ok <;>
      by_cases hB : (build_package env ("toy_package_b")).ok <;>
      constructor <;>
      simp [main_exitCode_eq env havail, PACKAGES, List.foldl, buildStep, hA, hB]

/-- Claim C5: for a listed package whose directory is absent,
build_package returns False with the directory-does-not-exist
diagnostic and never launches the build subprocess, and a run that
passes preflight records the package in failed_packages. -/
theorem missingDirectory_failsWithoutBuild (env : BuildEnv) (p : String)
    (hp : p ∈ PACKAGES) (hd : env.dirExists p = false) :
    (build_package env p).ok = false ∧
    (build_package env p).invoked = false ∧
    (build_package env p).output =
      ["[ERROR] Package directory " ++ p ++ " does not exist!"] ∧
    (env.buildModuleAvailable = true → p ∈ (main env).failedPackages) := by
  have hb : build_package env p =
      { ok := false, invoked := false,
        output := ["[ERROR] Package directory " ++ p ++ " does not exist!"] } := by
    simp [build_package, hd]
  refine ⟨by rw [hb], by rw [hb], by rw [hb], ?_⟩
  intro havail
  rw [main_failedPackages_eq env havail]
  have hok : (build_package env p).ok = false := by rw [hb]
  rcases (by simpa [PACKAGES] using hp : p = "toy_package_a" ∨ p = "toy_package_b") with h | h <;>
    subst h <;>
    by_cases hother : (build_package env ("toy_package_a")).ok <;>
    by_cases hother2 : (build_package env ("toy_package_b")).ok <;>
    simp_all [PACKAGES, List.foldl, buildStep]

/-- Claim C6: the loop of main preserves, at every iteration, that the
success counter equals the number of packages so far recorded
successful and that counter plus failed-package count equals the number
of packages processed; consequently after a full run the printed
summary's success count equals the number of successful packages and
success count plus failed count equals the list length. -/
theorem summaryCounts_invariant (env : BuildEnv) (h : env.buildModuleAvailable = true) :
    (∀ l : List String, ∀ st : LoopState,
      (List.foldl (buildStep env) st l).successCount +
        (List.foldl (buildStep env) st l).failedPackages.length =
        st.successCount + st.failedPackages.length + l.length ∧
      (List.foldl (buildStep env) st l).successCount =
        st.successCount + (l.filter (fun p => (build_package env p).ok)).length) ∧
    (main env).successCount =
      (PACKAGES.filter (fun p => (build_package env p).ok)).length ∧
    (main env).successCount + (main env).failedPackages.length = PACKAGES.length ∧
    ("Build Summary: " ++
      toString ((PACKAGES.filter (fun p => (build_package env p).ok)).length) ++
      "/" ++ toString PACKAGES.length ++ " successful") ∈ (main env).output := by
  refine ⟨buildLoop_counts env, ?_, ?_, ?_⟩
  · rw [main_successCount_eq env h]
    simpa using (buildLoop_counts env PACKAGES ⟨0, [], [], []⟩).2
  · rw [main_successCount_eq env h, main_failedPackages_eq env h]
    simpa using (buildLoop_counts env PACKAGES ⟨0, [], [], []⟩).1
  · have hs : (PACKAGES.foldl (buildStep env) ⟨0, [], [], []⟩).successCount =
        (PACKAGES.filter (fun p => (build_package env p).ok)).length := by
      simpa using (buildLoop_counts env PACKAGES ⟨0, [], [], []⟩).2
    have := main_summary_mem env h
    rwa [hs] at this

/-- Claim C7: when the build module is not importable, main prints
guidance and exits with code 1 before attempting any package: no build
subprocess is launched and nothing is recorded built or failed. -/
theorem missingBuildTool_aborts (env : BuildEnv)
    (h : env.buildModuleAvailable = false) :
    (main env).exitCode = 1 ∧
    (main env).invokedBuilds = [] ∧
    (main env).successCount = 0 ∧
    (main env).failedPackages = [] ∧
    "\n[ERROR] build module not found. Please install it:" ∈ (main env).output ∧
    "  pip install build" ∈ (main env).output := by
  simp [main, h]

/-- Claim C8: the verification suite's format check accepts a version
string exactly when the string starts with three nonempty dot-separated
digit groups, with arbitrary trailing content allowed; in particular it
accepts "1.0.0", "0.0.0+unknown" and "2.1.0.dev5+g1234abc" and rejects
"v1.0" and "abc". -/
theorem formatCheck_characterization :
    (∀ s : String, semverMatch s = true ↔
      ∃ d1 d2 d3 rest : List Char,
        d1 ≠ [] ∧ d2 ≠ [] ∧ d3 ≠ [] ∧
        d1.all Char.isDigit = true ∧ d2.all Char.isDigit = true ∧
        d3.all Char.isDigit = true ∧
        s.data = d1 ++ '.' :: (d2 ++ '.' :: (d3 ++ rest))) ∧
    test_version_format ("1.0.0") = .passed ∧
    test_version_format ("0.0.0+unknown") = .passed ∧
    test_version_format ("2.1.0.dev5+g1234abc") = .passed ∧
    test_version_format ("v1.0") ≠ .passed ∧
    test_version_format ("abc") ≠ .passed := by
  refine ⟨fun s => ⟨fun h => ?_, fun ⟨d1, d2, d3, rest, h1, h2, h3, a1, a2, a3, hs⟩ => ?_⟩,
    by decide, by decide, by decide, by decide, by decide⟩
  · simp only [semverMatch, Option.isSome_iff_exists] at h
    obtain ⟨⟨d1, d2, d3, r⟩, hp⟩ := h
    obtain ⟨h1, h2, h3, a1, a2, a3, hl⟩ := parseSemver_sound hp
    exact ⟨d1, d2, d3, r, h1, h2, h3, a1, a2, a3, hl⟩
  · simp only [semverMatch, hs]
    exact parseSemver_complete d1 d2 d3 rest h1 h2 h3 a1 a2 a3

/-- Witness for C1: with the build module available, both directories
present and both builds exiting 0 the exit code is 0; with the module
unavailable the exit code is 1. -/
theorem mainExitCode_iff_allSucceed_witness :
    (main ⟨true, fun _ => true, fun _ => .exited 0 ("") ("")⟩).exitCode = 0 ∧
    (main ⟨false, fun _ => true, fun _ => .exited 0 ("") ("")⟩).exitCode = 1 :=
  ⟨(mainExitCode_iff_allSucceed ⟨true, fun _ => true, fun _ => .exited 0 ("") ("")⟩).1.mpr
      ⟨rfl, by decide⟩,
   (mainExitCode_iff_allSucceed ⟨false, fun _ => true, fun _ => .exited 0 ("") ("")⟩).2
      (Or.inl rfl)⟩

/-- Witness for C5: a run where neither directory exists fails
toy_package_a without launching a subprocess and records it failed. -/
theorem missingDirectory_failsWithoutBuild_witness :
    (build_package ⟨true, fun _ => false, fun _ => .exited 0 ("") ("")⟩
      ("toy_package_a")).ok = false ∧
    (build_package ⟨true, fun _ => false, fun _ => .exited 0 ("") ("")⟩
      ("toy_package_a")).invoked = false ∧
    "toy_package_a" ∈
      (main ⟨true, fun _ => false, fun _ => .exited 0 ("") ("")⟩).failedPackages :=
  ⟨(missingDirectory_failsWithoutBuild _ ("toy_package_a") (by decide) rfl).1,
   (missingDirectory_failsWithoutBuild _ ("toy_package_a") (by decide) rfl).2.1,
   (missingDirectory_failsWithoutBuild _ ("toy_package_a") (by decide) rfl).2.2.2 rfl⟩

/-- Witness for C6: in a run where toy_package_a has no directory and
toy_package_b builds, the success count is 1 and 1 plus one failed
package equals the list length 2. -/
theorem summaryCounts_invariant_witness :
    (main ⟨true, fun p => p = "toy_package_b", fun _ => .exited 0 ("") ("")⟩).successCount =
      ((PACKAGES.filter (fun p =>
        (build_package ⟨true, fun p => p = "toy_package_b", fun _ => .exited 0 ("") ("")⟩ p).ok))).length ∧
    (main ⟨true, fun p => p = "toy_package_b", fun _ => .exited 0 ("") ("")⟩).successCount +
      (main ⟨true, fun p => p = "toy_package_b", fun _ => .exited 0 ("") ("")⟩).failedPackages.length =
      PACKAGES.length :=
  ⟨(summaryCounts_invariant ⟨true, fun p => p = "toy_package_b", fun _ => .exited 0 ("") ("")⟩ rfl).2.1,
   (summaryCounts_invariant ⟨true, fun p => p = "toy_package_b", fun _ => .exited 0 ("") ("")⟩ rfl).2.2.1⟩

/-- Witness for C7: a run without the build module exits 1 and launches
no build subprocess. -/
theorem missingBuildTool_aborts_witness :
    (main ⟨false, fun _ => true, fun _ => .exited 0 ("") ("")⟩).exitCode = 1 ∧
    (main ⟨false, fun _ => true, fun _ => .exited 0 ("") ("")⟩).invokedBuilds = [] ∧
    (main ⟨false, fun _ => true, fun _ => .exited 0 ("") ("")⟩).failedPackages = [] :=
  ⟨(missingBuildTool_aborts _ rfl).1,
   (missingBuildTool_aborts _ rfl).2.1,
   (missingBuildTool_aborts _ rfl).2.2.2.1⟩

/-- Claim C2 divergence: with metadata present reporting 1.2.3 while
the exposed version attribute is 9.9.9, the metadata-consistency check
reports skipped, not an assertion failure: the broad exception handler
wrapping both the lookup and the assertEqual also catches the
AssertionError raised by the mismatch. -/
theorem metadataMismatch_reports_skipped :
    test_version_matches_metadata ("9.9.9")
        ⟨fun k => if k = "toy-package-a" then some ("1.2.3") else none⟩ =
      .skipped ("Package metadata not available") ∧
    (test_version_matches_metadata ("9.9.9")
        ⟨fun k => if k = "toy-package-a" then some ("1.2.3") else none⟩).isFailed = false ∧
    test_version_matches_metadata ("9.9.9") ⟨fun _ => none⟩ =
      .skipped ("Package metadata not available") := by
  refine ⟨by decide, by decide, by decide⟩

/-- Claim C3 divergence: with the packaging library absent the
compliance check errors at the import statement, which stands before
the try block, instead of reporting skipped; its ImportError handler is
unreachable. With the library present the check fails exactly when the
version string does not parse. -/
theorem pep440_missingLibrary_errors :
    test_version_is_pep440_compliant ("0.0.0+unknown") ⟨false, fun _ => true⟩ =
      .errored ("ModuleNotFoundError: No module named packaging") ∧
    (test_version_is_pep440_compliant ("0.0.0+unknown") ⟨false, fun _ => true⟩).isSkipped
      = false ∧
    test_version_is_pep440_compliant ("0.0.0+unknown") ⟨true, fun _ => true⟩ = .passed ∧
    test_version_is_pep440_compliant ("not a version") ⟨true, fun _ => false⟩ =
      .failed ("Version is not PEP 440 compliant") := by
  refine ⟨by decide, by decide, by decide, by decide⟩

/-- Claim C4 counterexample: with the git tool present but describe
failing (no repository or no tags), the commit-distance check does not
report skipped: it asserts the numeric version format instead, passing
on a well-formed version and failing hard on a malformed one. -/
theorem commitDistance_noTags_not_skipped :
    test_version_increments_with_commits ("0.0.0+unknown")
        ⟨.completed 1 (""), .completed 1 ("")⟩ = .passed ∧
    (test_version_increments_with_commits ("0.0.0+unknown")
        ⟨.completed 1 (""), .completed 1 ("")⟩).isSkipped = false ∧
    (test_version_increments_with_commits ("abc")
        ⟨.completed 1 (""), .completed 1 ("")⟩).isFailed = true := by
  refine ⟨by decide, by decide, by decide⟩

/-- Claim C4 (amended): a missing git tool makes both version-control
checks report skipped; a failing describe query (no repository, no
tags) makes the tag-consistency check report skipped; but the same
failing describe makes the commit-distance check assert the numeric
version format, reporting passed or failed rather than skipped. -/
theorem gitChecks_absence_behavior (exposed : String) (env : GitEnv) :
    (env.describeTags = .notFound →
      test_version_with_git_tag exposed env = .skipped ("Git not available")) ∧
    (∀ rc out, env.describeTags = .completed rc out → rc ≠ 0 →
      test_version_with_git_tag exposed env =
        .skipped ("No git tags found or not in a git repository")) ∧
    (env.describeLong = .notFound →
      test_version_increments_with_commits exposed env =
        .skipped ("Git not available")) ∧
    (∀ rc out, env.describeLong = .completed rc out → rc ≠ 0 →
      test_version_increments_with_commits exposed env =
        (if semverMatch exposed then .passed
         else .failed ("Version should start with semantic versioning"))) := by
  refine ⟨?_, ?_, ?_, ?_⟩
  · intro h
    simp [test_version_with_git_tag, h]
  · intro rc out h hrc
    simp [test_version_with_git_tag, h, hrc]
  · intro h
    simp [test_version_increments_with_commits, h]
  · intro rc out h hrc
    simp [test_version_increments_with_commits, h, hrc]

/-- Witness for C4 (amended): concrete runs where describe fails and
where the tool is absent, exercising the skip branches of the
tag-consistency check. -/
theorem gitChecks_absence_behavior_witness :
    test_version_with_git_tag ("0.0.0+unknown")
        ⟨.completed 1 (""), .completed 1 ("")⟩ =
      .skipped ("No git tags found or not in a git repository") ∧
    test_version_with_git_tag ("0.0.0+unknown") ⟨.notFound, .notFound⟩ =
      .skipped ("Git not available") ∧
    test_version_increments_with_commits ("0.0.0+unknown") ⟨.notFound, .notFound⟩ =
      .skipped ("Git not available") :=
  ⟨(gitChecks_absence_behavior ("0.0.0+unknown")
      ⟨.completed 1 (""), .completed 1 ("")⟩).2.1 1 ("") rfl (by decide),
   (gitChecks_absence_behavior ("0.0.0+unknown") ⟨.notFound, .notFound⟩).1 rfl,
   (gitChecks_absence_behavior ("0.0.0+unknown") ⟨.notFound, .notFound⟩).2.2.1 rfl⟩

/-- Claim C9: the version attribute of toy_package_b equals the fixed
sentinel 0.0.0+unknown exactly in the runs where the metadata lookup
at import time raised PackageNotFoundError, and otherwise equals the
metadata-reported version. -/
theorem version_fallback_behavior (env : MetadataEnv) :
    (env.lookup ("toy-package-a") = none →
      toy_package_b_version env = "0.0.0+unknown") ∧
    (∀ v, env.lookup ("toy-package-a") = some v → toy_package_b_version env = v) := by
  constructor
  · intro h
    simp [toy_package_b_version, h, fallbackVersion]
  · intro v h
    simp [toy_package_b_version, h]

/-- Witness for C9: concrete metadata environments exercising both the
fallback branch and the metadata-found branch. -/
theorem version_fallback_behavior_witness :
    toy_package_b_version ⟨fun _ => none⟩ = "0.0.0+unknown" ∧
    toy_package_b_version ⟨fun _ => some ("1.2.3")⟩ = "1.2.3" :=
  ⟨(version_fallback_behavior ⟨fun _ => none⟩).1 rfl,
   (version_fallback_behavior ⟨fun _ => some ("1.2.3")⟩).2 ("1.2.3") rfl⟩

/-- Claim C10: the version resolution at import of toy_package_b and
the metadata-consistency check both query installation metadata under
the same hard-coded distribution key toy-package-a: whenever that key
reports a version the module exposes it, and both operations are
unchanged under any modification of the metadata at every other key,
in particular at toy_package_b itself. -/
theorem version_and_check_use_key_toy_package_a :
    (∀ env : MetadataEnv, ∀ v, env.lookup ("toy-package-a") = some v →
      toy_package_b_version env = v ∧
      test_version_matches_metadata (toy_package_b_version env) env = .passed) ∧
    (∀ env1 env2 : MetadataEnv, ∀ exposed : String,
      env1.lookup ("toy-package-a") = env2.lookup ("toy-package-a") →
      toy_package_b_version env1 = toy_package_b_version env2 ∧
      test_version_matches_metadata exposed env1 =
        test_version_matches_metadata exposed env2) := by
  constructor
  · intro env v h
    constructor
    · simp [toy_package_b_version, h]
    · simp [test_version_matches_metadata, toy_package_b_version, h]
  · intro env1 env2 exposed h
    constructor
    · simp [toy_package_b_version, h]
    · simp [test_version_matches_metadata, h]

/-- Witness for C10: two environments agreeing at toy-package-a and
disagreeing at toy_package_b are indistinguishable to the module and
the check, and the reported key value is exposed. -/
theorem version_and_check_use_key_toy_package_a_witness :
    toy_package_b_version
        ⟨fun k => if k = "toy-package-a" then some ("1.2.3") else none⟩ = "1.2.3" ∧
    test_version_matches_metadata ("9.9.9")
        ⟨fun k => if k = "toy-package-a" then some ("1.2.3") else none⟩ =
      test_version_matches_metadata ("9.9.9")
        ⟨fun k => if k = "toy-package-a" then some ("1.2.3") else some ("7.7.7")⟩ :=
  ⟨((version_and_check_use_key_toy_package_a).1
      ⟨fun k => if k = "toy-package-a" then some ("1.2.3") else none⟩ ("1.2.3")
      (by decide)).1,
   ((version_and_check_use_key_toy_package_a).2
      ⟨fun k => if k = "toy-package-a" then some ("1.2.3") else none⟩
      ⟨fun k => if k = "toy-package-a" then some ("1.2.3") else some ("7.7.7")⟩
      ("9.9.9") (by decide)).2⟩

end ToyProject
